import Mathlib

/-!
Shallow embedding of the client-side session orchestrator of the
Low-Latency-AI-Voice-Agent repository (frontend/app/page.tsx), together
with the form-submission guard of the FormManager component.

The React component is a single-threaded, event-driven program: every
handler (WebSocket callbacks, speech-recognition callbacks, speech-synthesis
utterance callbacks, button handlers) runs to completion before the next
one.  We model the component state as a record `AppState` and every handler
as a pure function `AppState → AppState × List Effect`, where `Effect`
records the externally visible actions the handler performs (opening a
socket, sending a frame, starting/stopping recognition, speaking or
cancelling synthesis, scheduling timers, logging).  The order of the
effect list is the order the statements execute in the source.

Modelling conventions, all taken from the source:
  * `formData` starts as `{name:'', phone:'', jobTitle:''}` but is updated
    with a computed key (`setFormData(prev => ({...prev, [data.field]: data.value}))`),
    so it is embedded as an association list from string keys to JavaScript
    string-or-undefined values (`Option String`).  A missing `data.field`
    is converted by JavaScript property-key conversion to the key
    "undefined"; a missing `data.value` stores `undefined` (`none`).
  * JavaScript truthiness of a string-or-undefined value (`if (data.user_message)`,
    `formData.name && ...`) is `truthy`: defined and non-empty.
  * Chat timestamps (`new Date()`) and the requestAnimationFrame amplitude
    metering loop are not part of any handler's decision logic and are not
    modelled; `audioLevel` keeps only the writes handlers perform.
  * The browser speech-synthesis engine queue is modelled as `synthQueue`;
    `speechSynthesis.speak` appends to it, `speechSynthesis.cancel` flushes
    it and (synchronously, following the spec's concurrency model in which
    cancellation takes effect before the next frame) runs the cancelled
    utterance's error callback, which sets `isAISpeaking` to false and
    clears `speechSynthesisRef`.
  * Asynchronous outcomes that a handler branches on (the `new WebSocket`
    constructor throwing, `getUserMedia` failing) are passed as explicit
    boolean parameters.
-/

namespace VoiceAgent

/-- Who a chat entry belongs to (`type: 'user' | 'assistant'`). -/
inductive Who
  | user
  | assistant
deriving DecidableEq

/-- One entry of `chatHistory`.  The `assistant_response` branch stores
`data.message` even when it is absent, so the text is string-or-undefined. -/
structure ChatMessage where
  who : Who
  text : Option String
deriving DecidableEq

/-- `ConnectionStatus` of page.tsx. -/
inductive ConnectionStatus
  | disconnected
  | connecting
  | connected
deriving DecidableEq

/-- `RecordingStatus` of page.tsx. -/
inductive RecordingStatus
  | idle
  | recording
  | processing
deriving DecidableEq

/-- Outbound frames sent over the WebSocket. -/
inductive OutMsg
  | connectMsg
  | chatMsg (text : String)
deriving DecidableEq

/-- Externally visible actions a handler performs, in execution order. -/
inductive Effect
  | openSocket
  | wsSend (m : OutMsg)
  | scheduleReconnect (delayMs : Nat)
  | synthCancel
  | synthSpeak (text : String)
  | scheduleSpeak (delayMs : Nat) (text : String)
  | recognitionStart
  | recognitionStop
  | closeAudio
  | logReceived
  | logParseError
  | logSpeechError
deriving DecidableEq

/-- The component state of `Home` in page.tsx. -/
structure AppState where
  formData : List (String × Option String)
  chatHistory : List ChatMessage
  connectionStatus : ConnectionStatus
  recordingStatus : RecordingStatus
  audioLevel : Rat
  isAISpeaking : Bool
  isSubmitted : Bool
  /-- `recognition` is non-null (webkitSpeechRecognition initialized). -/
  recognitionAvailable : Bool
  /-- `wsRef.current` is non-null and the socket is OPEN. -/
  wsOpen : Bool
  /-- `speechSynthesisRef.current` (the text of the utterance it holds). -/
  synthRef : Option String
  /-- The browser speech-synthesis engine's utterance queue. -/
  synthQueue : List String
deriving DecidableEq

/-- JavaScript property read on the form-data object: `undefined` when the
key is absent, otherwise the stored string-or-undefined value. -/
def lookupKey : List (String × Option String) → String → Option String
  | [], _ => none
  | (k, v) :: rest, key => if k = key then v else lookupKey rest key

/-- JavaScript spread-with-computed-key update
`{...prev, [key]: value}`: overwrite the key if present, append otherwise. -/
def setKey : List (String × Option String) → String → Option String → List (String × Option String)
  | [], key, v => [(key, v)]
  | (k, w) :: rest, key, v =>
    if k = key then (k, v) :: rest else (k, w) :: setKey rest key v

/-- JavaScript truthiness of a string-or-undefined value. -/
def truthy : Option String → Bool
  | some v => decide (v ≠ "")
  | none => false

/-- Read one form field (`formData.name` etc.). -/
def getField (s : AppState) (f : String) : Option String :=
  lookupKey s.formData f

/-- The initial `useState` values of page.tsx. -/
def initState : AppState :=
  { formData := [("name", some ""), ("phone", some ""), ("jobTitle", some "")]
    chatHistory := []
    connectionStatus := .disconnected
    recordingStatus := .idle
    audioLevel := 0
    isAISpeaking := false
    isSubmitted := false
    recognitionAvailable := false
    wsOpen := false
    synthRef := none
    synthQueue := [] }

/-- `speechSynthesis.cancel()` as invoked from `speakText`'s guard: the
engine queue is flushed and the cancelled utterance's error callback runs
(synchronously in the spec's concurrency model), clearing `isAISpeaking`
and the ref (the handler also assigns the ref to null itself). -/
def cancelSpeech (s : AppState) : AppState :=
  { s with synthQueue := [], synthRef := none, isAISpeaking := false }

/-- `speakText` (page.tsx lines 217-244): if `speechSynthesisRef.current`
is non-null, cancel first; then a new utterance is constructed, stored in
the ref and handed to `speechSynthesis.speak` (appended to the engine
queue).  Effects are listed in execution order. -/
def speakText (text : String) (s : AppState) : AppState × List Effect :=
  if s.synthRef.isSome then
    let s1 := cancelSpeech s
    ({ s1 with synthRef := some text, synthQueue := s1.synthQueue ++ [text] },
     [Effect.synthCancel, Effect.synthSpeak text])
  else
    ({ s with synthRef := some text, synthQueue := s.synthQueue ++ [text] },
     [Effect.synthSpeak text])

/-- The `utterance.onstart` callback: `setIsAISpeaking(true)`. -/
def onUtteranceStart (s : AppState) : AppState :=
  { s with isAISpeaking := true }

/-- The `utterance.onend` callback: the engine pops the finished utterance;
the handler sets `isAISpeaking` to false and clears the ref. -/
def onUtteranceEnd (s : AppState) : AppState :=
  { s with isAISpeaking := false, synthRef := none, synthQueue := s.synthQueue.tail }

/-- The `utterance.onerror` callback: same writes as `onend`. -/
def onUtteranceError (s : AppState) : AppState :=
  { s with isAISpeaking := false, synthRef := none, synthQueue := s.synthQueue.tail }

/-- The welcome text spoken on a `welcome` frame (page.tsx line 132). -/
def welcomeText : String :=
  "Hello! I\x27ll collect your name, phone number, and job title. Can you please provide your information?"

/-- The confirmation text used by the `form_submitted` branches. -/
def submittedText : String :=
  "Form submitted successfully! Thank you for providing your information."

/-- The fields of a parsed inbound JSON frame that the dispatch reads
(each is string-or-undefined on the wire). -/
structure Inbound where
  type? : Option String := none
  action? : Option String := none
  user_message? : Option String := none
  ai_response? : Option String := none
  field? : Option String := none
  value? : Option String := none
  message? : Option String := none
deriving DecidableEq

/-- The `form_submitted` handling shared by two dispatch branches
(page.tsx lines 157-165 and 173-181): set `isSubmitted`, append the
confirmation chat entry, speak it. -/
def handleFormSubmitted (s : AppState) : AppState × List Effect :=
  let s1 := { s with isSubmitted := true,
                     chatHistory := s.chatHistory ++ [⟨Who.assistant, some submittedText⟩] }
  speakText submittedText s1

/-- The dispatch on a successfully parsed frame (page.tsx lines 130-192). -/
def handleData (d : Inbound) (s : AppState) : AppState × List Effect :=
  if d.type? = some "welcome" then
    ({ s with chatHistory := s.chatHistory ++ [⟨Who.assistant, some welcomeText⟩] },
     [Effect.scheduleSpeak 500 welcomeText])
  else if d.type? = some "chat_response" then
    let s1 :=
      if truthy d.user_message? then
        { s with chatHistory := s.chatHistory ++ [⟨Who.user, d.user_message?⟩] }
      else s
    if truthy d.ai_response? then
      let s2 := { s1 with chatHistory := s1.chatHistory ++ [⟨Who.assistant, d.ai_response?⟩] }
      speakText (d.ai_response?.getD "") s2
    else (s1, [])
  else if d.type? = some "form_update" ∨ d.action? = some "field_updated" then
    if d.action? = some "form_submitted" then
      handleFormSubmitted s
    else
      ({ s with formData := setKey s.formData (d.field?.getD "undefined") d.value? }, [])
  else if d.action? = some "form_submitted" then
    handleFormSubmitted s
  else if d.action? = some "assistant_response" then
    let s1 := { s with chatHistory := s.chatHistory ++ [⟨Who.assistant, d.message?⟩] }
    if truthy d.message? then speakText (d.message?.getD "") s1 else (s1, [])
  else
    (s, [])

/-- `ws.onmessage` (page.tsx lines 125-196): `JSON.parse` inside a
try/catch; a parse failure is logged and the handler returns (the input
`none` models an unparsable payload).  On success the frame is logged
(`console.log('Received:', data)`) and dispatched.  The whole function is
total: no input makes it throw. -/
def onmessage (raw : Option Inbound) (s : AppState) : AppState × List Effect :=
  match raw with
  | none => (s, [Effect.logParseError])
  | some d => ((handleData d s).1, Effect.logReceived :: (handleData d s).2)

/-- `connectWebSocket` (page.tsx lines 108-215): set status `connecting`
and construct the socket; if the constructor throws (`ctorOk = false`) the
catch block sets status `disconnected` and schedules a retry in 3000 ms. -/
def connectWebSocket (ctorOk : Bool) (s : AppState) : AppState × List Effect :=
  if ctorOk then
    ({ s with connectionStatus := .connecting }, [Effect.openSocket])
  else
    ({ s with connectionStatus := .disconnected }, [Effect.scheduleReconnect 3000])

/-- `ws.onopen`: status `connected`, store the ref, send the connect frame. -/
def wsOnOpen (s : AppState) : AppState × List Effect :=
  ({ s with connectionStatus := .connected, wsOpen := true },
   [Effect.wsSend OutMsg.connectMsg])

/-- `ws.onclose` (page.tsx lines 198-203): status `disconnected`, clear the
ref, schedule `connectWebSocket` again in 3000 ms. -/
def wsOnClose (s : AppState) : AppState × List Effect :=
  ({ s with connectionStatus := .disconnected, wsOpen := false },
   [Effect.scheduleReconnect 3000])

/-- `ws.onerror`: status `disconnected` only. -/
def wsOnError (s : AppState) : AppState × List Effect :=
  ({ s with connectionStatus := .disconnected }, [])

/-- `n` consecutive failed connection attempts: each attempt constructs the
socket (which opens no session) and the transport closes, firing
`ws.onclose`.  Returns the final state and the concatenated effect trace. -/
def reconnectTrace : Nat → AppState → AppState × List Effect
  | 0, s => (s, [])
  | n + 1, s =>
    let (s1, e1) := connectWebSocket true s
    let (s2, e2) := wsOnClose s1
    let (s3, e3) := reconnectTrace n s2
    (s3, e1 ++ e2 ++ e3)

/-- `speechRecognition.onresult` (page.tsx lines 51-65): send the transcript
as a chat frame only when the socket ref is non-null and OPEN, then set
recording status `idle`.  There is no other branch: when the socket is not
open the transcript is simply not sent. -/
def onSpeechResult (transcript : String) (s : AppState) : AppState × List Effect :=
  let e := if s.wsOpen then [Effect.wsSend (OutMsg.chatMsg transcript)] else []
  ({ s with recordingStatus := .idle }, e)

/-- `speechRecognition.onerror`: log and set recording status `idle`. -/
def onSpeechError (s : AppState) : AppState × List Effect :=
  ({ s with recordingStatus := .idle }, [Effect.logSpeechError])

/-- `speechRecognition.onend`: set recording status `idle`. -/
def onSpeechEnd (s : AppState) : AppState × List Effect :=
  ({ s with recordingStatus := .idle }, [])

/-- `startRecording` (page.tsx lines 277-299): return immediately unless
recording status is `idle`, the connection is `connected`, the form is not
submitted, and recognition is available; otherwise set status `recording`
and start recognition.  `getUserMedia` then either succeeds (the audio
analysis set up by `setupAudioAnalysis` is pure amplitude metering) or
rejects, in which case the catch block resets status to `idle` and the
audio level to 0 — recognition has already been started either way. -/
def startRecording (mediaOk : Bool) (s : AppState) : AppState × List Effect :=
  if s.recordingStatus ≠ RecordingStatus.idle ∨
     s.connectionStatus ≠ ConnectionStatus.connected ∨
     s.isSubmitted = true ∨
     s.recognitionAvailable = false then
    (s, [])
  else
    let s1 := { s with recordingStatus := .recording }
    if mediaOk then
      (s1, [Effect.recognitionStart])
    else
      ({ s1 with recordingStatus := .idle, audioLevel := 0 }, [Effect.recognitionStart])

/-- `stopRecording` (page.tsx lines 301-316). -/
def stopRecording (s : AppState) : AppState × List Effect :=
  if s.recordingStatus ≠ RecordingStatus.recording then
    (s, [])
  else
    ({ s with recordingStatus := .processing },
     [Effect.recognitionStop, Effect.closeAudio])

/-- The validity condition `submitForm` tests (page.tsx line 319):
all three fields truthy. -/
def isValidForm (s : AppState) : Bool :=
  truthy (getField s "name") && truthy (getField s "phone") && truthy (getField s "jobTitle")

/-- `submitForm` (page.tsx lines 318-331): when all three fields are
truthy, set `isSubmitted`, append the confirmation chat entry and schedule
the spoken confirmation 100 ms later; otherwise do nothing. -/
def submitForm (s : AppState) : AppState × List Effect :=
  if isValidForm s then
    let nm := (getField s "name").getD ""
    let ph := (getField s "phone").getD ""
    let jt := (getField s "jobTitle").getD ""
    let confirmText :=
      "Thank you " ++ nm ++ "! Your information has been submitted successfully. Phone: "
        ++ ph ++ ", Job: " ++ jt
    let spokenText :=
      "Thank you " ++ nm ++ "! Your information has been submitted successfully."
    ({ s with isSubmitted := true,
              chatHistory := s.chatHistory ++ [⟨Who.assistant, some confirmText⟩] },
     [Effect.scheduleSpeak 100 spokenText])
  else
    (s, [])

/-- Outcome of the FormManager submit handler. -/
inductive SubmitAction
  | rejectedIncomplete (toastMsg : String)
  | submitAttempt
deriving DecidableEq

/-- `handleSubmit` of the FormManager component (src/unnamed/part_003 lines
203-217): if `currentForm?.isValid` is false, show the error toast and
return without submitting; otherwise proceed to `submitForm()`. -/
def handleSubmit (formIsValid : Bool) : SubmitAction :=
  if formIsValid then SubmitAction.submitAttempt
  else SubmitAction.rejectedIncomplete "Please fill all required fields"

/-- A connected, idle session with recognition initialized. -/
def stConnected : AppState :=
  { initState with connectionStatus := .connected, wsOpen := true, recognitionAvailable := true }

/-- A connected session in which an AI utterance is currently playing. -/
def stSpeaking : AppState :=
  { stConnected with isAISpeaking := true, synthRef := some "prev", synthQueue := ["prev"] }

/-- A connected session that is currently capturing (Listening). -/
def stRecording : AppState :=
  { stConnected with recordingStatus := .recording }

/-- A connected session whose form has been submitted. -/
def stSubmitted : AppState :=
  { stConnected with isSubmitted := true }

/-- A connected session with all three form fields filled. -/
def stFilled : AppState :=
  { stConnected with
      formData := [("name", some "Ada"), ("phone", some "01712345678"), ("jobTitle", some "Engineer")] }

/-- A session whose socket is not open (e.g. mid-reconnect) while a
recognition result arrives. -/
def stOffline : AppState :=
  { stRecording with wsOpen := false, connectionStatus := .disconnected }

/-- An inbound frame whose `type`/`action` tags match no dispatch branch. -/
def unknownFrame : Inbound :=
  { type? := some "bogus", action? := some "mystery" }

/-- The inbound frame `{type:'form_update', action:'field_updated', field, value}`. -/
def fieldFrame (f v : String) : Inbound :=
  { type? := some "form_update", action? := some "field_updated",
    field? := some f, value? := some v }

/-- The inbound frame `{action:'assistant_response', message}`. -/
def asstFrame (m : String) : Inbound :=
  { action? := some "assistant_response", message? := some m }

/-- Updating a key and reading it back yields the written value
(the JavaScript object-spread update). -/
theorem lookup_set_same (m : List (String × Option String)) (k : String) (v : Option String) :
    lookupKey (setKey m k v) k = v := by
  induction m with
  | nil => simp [setKey, lookupKey]
  | cons p rest ih =>
    obtain ⟨a, b⟩ := p
    by_cases hak : a = k
    · simp [setKey, lookupKey, hak]
    · simp [setKey, lookupKey, hak, ih]

/-- `speakText` leaves every non-synthesis component of the state alone. -/
theorem speakText_preserves (t : String) (s : AppState) :
    (speakText t s).1.recordingStatus = s.recordingStatus ∧
    (speakText t s).1.isSubmitted = s.isSubmitted ∧
    (speakText t s).1.connectionStatus = s.connectionStatus ∧
    (speakText t s).1.formData = s.formData ∧
    (speakText t s).1.chatHistory = s.chatHistory := by
  unfold speakText cancelSpeech
  split <;> exact ⟨rfl, rfl, rfl, rfl, rfl⟩

/-- `speakText` hands the new text to the engine and stores it in the ref. -/
theorem speakText_starts (t : String) (s : AppState) :
    Effect.synthSpeak t ∈ (speakText t s).2 ∧ (speakText t s).1.synthRef = some t := by
  unfold speakText cancelSpeech
  split <;> simp

/-- Claim C1, counterexample: in a state where an AI utterance is in
progress (`isAISpeaking`, ref and engine queue non-empty) and the guard of
`startRecording` passes, the invocation starts recognition but performs no
speech-synthesis cancellation, and playback is still in progress
afterwards — refuting that every invocation of `startRecording` cancels
synthesis before starting recognition. -/
theorem c1_counterexample :
    stSpeaking.isAISpeaking = true ∧
    Effect.recognitionStart ∈ (startRecording true stSpeaking).2 ∧
    Effect.synthCancel ∉ (startRecording true stSpeaking).2 ∧
    (startRecording true stSpeaking).1.isAISpeaking = true ∧
    (startRecording true stSpeaking).1.synthQueue = ["prev"] := by
  decide

/-- Claim C1, amended: `startRecording` never performs speech-synthesis
cancellation — no invocation emits a cancel, and the playback state
(`isAISpeaking`, the ref and the engine queue) is exactly what it was
before the call; an in-progress utterance keeps playing while the
microphone records.  Cancellation of a previous utterance happens only
inside `speakText` when the next utterance begins. -/
theorem c1_startRecording_never_cancels (mediaOk : Bool) (s : AppState) :
    Effect.synthCancel ∉ (startRecording mediaOk s).2 ∧
    (startRecording mediaOk s).1.isAISpeaking = s.isAISpeaking ∧
    (startRecording mediaOk s).1.synthRef = s.synthRef ∧
    (startRecording mediaOk s).1.synthQueue = s.synthQueue := by
  unfold startRecording
  split
  · simp
  · split <;> simp

/-- Claim C2: every transport closure handled by `ws.onclose` leaves the
connection `disconnected` and schedules exactly one new `connectWebSocket`
attempt after the fixed 3000 ms delay, and the retrying never stops: after
any number `n` of consecutive failed attempts the trace contains `n`
scheduled 3000 ms reconnects — one per failure — so a further attempt is
always pending (no circuit ever permanently opens). -/
theorem c2_reconnect_after_fixed_delay_forever (s : AppState) (n : Nat) :
    (wsOnClose s).2 = [Effect.scheduleReconnect 3000] ∧
    (wsOnClose s).1.connectionStatus = ConnectionStatus.disconnected ∧
    (reconnectTrace n s).2.count (Effect.scheduleReconnect 3000) = n := by
  refine ⟨rfl, rfl, ?_⟩
  induction n generalizing s with
  | zero => rfl
  | succ n ih =>
    unfold reconnectTrace connectWebSocket wsOnClose
    simp [List.count_append, ih]

/-- Claim C7, counterexample: calling `connectWebSocket` while the state is
already `connected` is not a no-op — it opens a fresh transport and moves
the status to `connecting`, refuting idempotence. -/
theorem c7_counterexample :
    stConnected.connectionStatus = ConnectionStatus.connected ∧
    (connectWebSocket true stConnected).2 = [Effect.openSocket] ∧
    (connectWebSocket true stConnected).1.connectionStatus = ConnectionStatus.connecting := by
  decide

/-- Claim C7, amended: `connectWebSocket` is unguarded — every invocation
(also while already `connected` or `connecting`) sets the status to
`connecting` and constructs a new transport. -/
theorem c7_connect_unguarded (s : AppState) :
    (connectWebSocket true s).1.connectionStatus = ConnectionStatus.connecting ∧
    (connectWebSocket true s).2 = [Effect.openSocket] := by
  unfold connectWebSocket
  simp

/-- Claim C8, counterexample: when a recognition result arrives while the
socket is not open, the handler emits no send and no error — the
transcript is silently dropped and recording just returns to idle,
refuting that the caller sees a `NotConnected` error. -/
theorem c8_counterexample :
    stOffline.wsOpen = false ∧
    (onSpeechResult "hello" stOffline).2 = [] ∧
    (onSpeechResult "hello" stOffline).1 =
      { stOffline with recordingStatus := RecordingStatus.idle } := by
  decide

/-- Claim C8, amended: sending a recognized transcript while the transport
is not open is a silent drop — the handler performs no effect at all (no
send, no buffered message, no error surfaced) and only resets the
recording status to idle. -/
theorem c8_send_silently_dropped (s : AppState) (t : String) (h : s.wsOpen = false) :
    onSpeechResult t s = ({ s with recordingStatus := RecordingStatus.idle }, []) := by
  unfold onSpeechResult
  simp [h]

/-- Claim C8, witness: the amended statement evaluated at an offline state. -/
theorem c8_witness :
    stOffline.wsOpen = false ∧
    onSpeechResult "hello" stOffline =
      ({ stOffline with recordingStatus := RecordingStatus.idle }, []) :=
  ⟨by decide, c8_send_silently_dropped stOffline "hello" (by decide)⟩

/-- Claim C3: `submitForm` succeeds — sets `isSubmitted` and appends the
confirmation chat entry — exactly when all three required fields are
truthy (`isValidForm`); when any required field is unfilled it does
nothing at all, so `isSubmitted` stays false if it was false and the chat
history is unchanged.  The FormManager's `handleSubmit` additionally surfaces the
incomplete-form rejection when validity fails: it submits iff the form is
valid and otherwise raises the error toast. -/
theorem c3_submit_iff_valid (s : AppState) :
    (isValidForm s = true →
      (submitForm s).1.isSubmitted = true ∧
      (submitForm s).1.chatHistory =
        s.chatHistory ++
          [⟨Who.assistant,
            some ("Thank you " ++ ((getField s "name").getD "")
              ++ "! Your information has been submitted successfully. Phone: "
              ++ ((getField s "phone").getD "") ++ ", Job: "
              ++ ((getField s "jobTitle").getD ""))⟩]) ∧
    (isValidForm s = false → submitForm s = (s, [])) ∧
    (∀ b, handleSubmit b = SubmitAction.submitAttempt ↔ b = true) ∧
    handleSubmit false = SubmitAction.rejectedIncomplete "Please fill all required fields" := by
  refine ⟨?_, ?_, ?_, rfl⟩
  · intro h
    unfold submitForm
    simp [h]
  · intro h
    unfold submitForm
    simp [h]
  · intro b
    cases b <;> simp [handleSubmit]

/-- Claim C3, witness: a fully filled form submits; the initial (empty)
form is rejected with no state change. -/
theorem c3_witness :
    (submitForm stFilled).1.isSubmitted = true ∧
    submitForm initState = (initState, []) :=
  ⟨((c3_submit_iff_valid stFilled).1 (by decide)).1,
   (c3_submit_iff_valid initState).2.1 (by decide)⟩

/-- Claim C4: the `ws.onmessage` callback is a total function (the
embedding of the try/catch body never throws).  A payload that fails JSON
parsing is logged and discarded; a parsed payload whose `type`/`action`
tags match no dispatch branch is logged (`console.log('Received:', ...)`)
and falls through every branch — chat history, form state, connection
state, indeed the whole component state, are unchanged. -/
theorem c4_unknown_payload_discarded (s : AppState) (d : Inbound)
    (h1 : d.type? ≠ some "welcome") (h2 : d.type? ≠ some "chat_response")
    (h3 : d.type? ≠ some "form_update") (h4 : d.action? ≠ some "field_updated")
    (h5 : d.action? ≠ some "form_submitted") (h6 : d.action? ≠ some "assistant_response") :
    onmessage (some d) s = (s, [Effect.logReceived]) ∧
    onmessage none s = (s, [Effect.logParseError]) := by
  refine ⟨?_, rfl⟩
  unfold onmessage handleData
  simp [h1, h2, h3, h4, h5, h6]

/-- Claim C4, witness: a frame with unrecognized tags, and an unparsable
payload, both leave a concrete connected state untouched. -/
theorem c4_witness :
    onmessage (some unknownFrame) stConnected = (stConnected, [Effect.logReceived]) ∧
    onmessage none stConnected = (stConnected, [Effect.logParseError]) :=
  c4_unknown_payload_discarded stConnected unknownFrame
    (by decide) (by decide) (by decide) (by decide) (by decide) (by decide)

/-- Claim C5, counterexample: an `assistant_response` frame that arrives
while the session is Listening (`recordingStatus = recording`) is played
immediately — synthesis is handed the message in the same handler run and
the utterance ref is set — refuting that it is queued until Listening
ends. -/
theorem c5_counterexample :
    stRecording.recordingStatus = RecordingStatus.recording ∧
    Effect.synthSpeak "Hi" ∈ (onmessage (some (asstFrame "Hi")) stRecording).2 ∧
    (onmessage (some (asstFrame "Hi")) stRecording).1.synthRef = some "Hi" ∧
    (onmessage (some (asstFrame "Hi")) stRecording).1.recordingStatus =
      RecordingStatus.recording := by
  decide

/-- Claim C5, amended: an assistant response message is appended to the
chat and its synthesis begins at once in every state — the handler never
consults the recording status, so arrival while Listening behaves exactly
like arrival in any other state; there is no queue-until-Listening-ends
path. -/
theorem c5_assistant_speaks_immediately (s : AppState) (m : String) (h : m ≠ "") :
    Effect.synthSpeak m ∈ (onmessage (some (asstFrame m)) s).2 ∧
    (onmessage (some (asstFrame m)) s).1.synthRef = some m ∧
    (onmessage (some (asstFrame m)) s).1.recordingStatus = s.recordingStatus := by
  unfold onmessage handleData asstFrame
  have hspeak := speakText_starts m
    { s with chatHistory := s.chatHistory ++ [⟨Who.assistant, some m⟩] }
  have hpres := speakText_preserves m
    { s with chatHistory := s.chatHistory ++ [⟨Who.assistant, some m⟩] }
  simp [truthy, h, hspeak.1, hspeak.2, hpres.1]

/-- Claim C5, witness: the amended statement at a concrete idle state. -/
theorem c5_witness :
    Effect.synthSpeak "Hello there" ∈ (onmessage (some (asstFrame "Hello there")) stConnected).2 ∧
    (onmessage (some (asstFrame "Hello there")) stConnected).1.synthRef = some "Hello there" ∧
    (onmessage (some (asstFrame "Hello there")) stConnected).1.recordingStatus =
      stConnected.recordingStatus :=
  c5_assistant_speaks_immediately stConnected "Hello there" (by decide)

/-- Claim C9: a `{type:'form_update', action:'field_updated', field, value}`
frame updates the form model immediately in any voice state — the handler
never reads the recording status — and the written field reads back the
written value and counts as filled (truthy) whenever the value is
non-empty. -/
theorem c9_field_update_applied (s : AppState) (f v : String) (h : v ≠ "") :
    lookupKey ((onmessage (some (fieldFrame f v)) s).1).formData f = some v ∧
    truthy (lookupKey ((onmessage (some (fieldFrame f v)) s).1).formData f) = true ∧
    ((onmessage (some (fieldFrame f v)) s).1).recordingStatus = s.recordingStatus ∧
    ((onmessage (some (fieldFrame f v)) s).1).chatHistory = s.chatHistory := by
  unfold onmessage handleData fieldFrame
  simp [lookup_set_same, truthy, h]

/-- Claim C9, witness: the spec's scenario — the update arrives while
Listening, and afterwards `fields["email"].value == "a@b.com"` and the
field is filled. -/
theorem c9_witness :
    lookupKey ((onmessage (some (fieldFrame "email" "a@b.com")) stRecording).1).formData "email" =
      some "a@b.com" ∧
    truthy (lookupKey
      ((onmessage (some (fieldFrame "email" "a@b.com")) stRecording).1).formData "email") = true ∧
    ((onmessage (some (fieldFrame "email" "a@b.com")) stRecording).1).recordingStatus =
      stRecording.recordingStatus :=
  ⟨(c9_field_update_applied stRecording "email" "a@b.com" (by decide)).1,
   (c9_field_update_applied stRecording "email" "a@b.com" (by decide)).2.1,
   (c9_field_update_applied stRecording "email" "a@b.com" (by decide)).2.2.1⟩

/-- The synthesis-pipeline invariant: the utterance ref mirrors the head of
the engine queue, and the engine never holds more than one utterance. -/
def synthInv (s : AppState) : Prop :=
  s.synthRef = s.synthQueue.head? ∧ s.synthQueue.length ≤ 1

/-- `speakText` preserves the synthesis invariant and leaves exactly the
new utterance in the engine queue. -/
theorem speakText_inv (t : String) (s : AppState) (h : synthInv s) :
    synthInv (speakText t s).1 ∧ (speakText t s).1.synthQueue = [t] := by
  obtain ⟨h1, h2⟩ := h
  unfold speakText cancelSpeech synthInv
  split
  · simp
  · rename_i hnone
    have hq : s.synthQueue = [] := by
      cases hq : s.synthQueue with
      | nil => rfl
      | cons a l =>
        rw [hq] at h1
        simp at h1
        rw [h1] at hnone
        simp at hnone
    simp [hq]

/-- Every dispatch branch of the message handler preserves the synthesis
invariant. -/
theorem handleData_inv (d : Inbound) (s : AppState) (h : synthInv s) :
    synthInv (handleData d s).1 := by
  unfold handleData handleFormSubmitted
  dsimp only
  repeat' split
  all_goals first
    | exact h
    | (refine (speakText_inv _ _ ?_).1; exact h)

/-- Claim C6: at most one synthesis utterance is ever active.  Under the
synthesis invariant, `speak` while a previous utterance is held (`ref`
non-null, hence one utterance in the engine) emits the cancel strictly
before the new speak, the engine then holds exactly the new utterance, and
the invariant — queue length at most one — is preserved by every
operation of the component: `speakText` itself, the utterance callbacks,
every inbound message, and all capture/connection/submit handlers. -/
theorem c6_at_most_one_utterance (s : AppState) (t : String) (h : synthInv s) :
    (s.synthRef.isSome = true →
      (speakText t s).2 = [Effect.synthCancel, Effect.synthSpeak t]) ∧
    (speakText t s).1.synthQueue = [t] ∧
    synthInv (speakText t s).1 ∧
    synthInv (onUtteranceStart s) ∧
    synthInv (onUtteranceEnd s) ∧
    synthInv (onUtteranceError s) ∧
    (∀ d, synthInv (onmessage d s).1) ∧
    (∀ mediaOk, synthInv (startRecording mediaOk s).1) ∧
    synthInv (stopRecording s).1 ∧
    synthInv (submitForm s).1 ∧
    (∀ tr, synthInv (onSpeechResult tr s).1) ∧
    (∀ ok, synthInv (connectWebSocket ok s).1) ∧
    synthInv (wsOnOpen s).1 ∧
    synthInv (wsOnClose s).1 ∧
    synthInv (wsOnError s).1 := by
  have hend : synthInv (onUtteranceEnd s) := by
    obtain ⟨h1, h2⟩ := h
    unfold onUtteranceEnd synthInv
    cases hq : s.synthQueue with
    | nil => simp
    | cons a l =>
      rw [hq] at h2
      simp at h2
      simp [h2]
  refine ⟨?_, (speakText_inv t s h).2, (speakText_inv t s h).1, h, hend, hend, ?_, ?_, ?_, ?_,
          fun _ => h, ?_, h, h, h⟩
  · intro hsome
    unfold speakText
    simp [hsome]
  · intro d
    cases d with
    | none => exact h
    | some dd => exact handleData_inv dd s h
  · intro mediaOk
    unfold startRecording
    split
    · exact h
    · split <;> exact h
  · unfold stopRecording
    split <;> exact h
  · unfold submitForm
    split <;> exact h
  · intro ok
    unfold connectWebSocket
    split <;> exact h

/-- Claim C6, witness: from a state with an utterance in progress, speaking
a new text cancels first, then speaks, and the engine holds exactly the
new utterance. -/
theorem c6_witness :
    (speakText "next" stSpeaking).2 = [Effect.synthCancel, Effect.synthSpeak "next"] ∧
    (speakText "next" stSpeaking).1.synthQueue = ["next"] :=
  ⟨(c6_at_most_one_utterance stSpeaking "next" ⟨rfl, by decide⟩).1 rfl,
   (c6_at_most_one_utterance stSpeaking "next" ⟨rfl, by decide⟩).2.1⟩

/-- No dispatch branch of the message handler ever clears `isSubmitted`. -/
theorem handleData_isSubmitted (d : Inbound) (s : AppState) (h : s.isSubmitted = true) :
    (handleData d s).1.isSubmitted = true := by
  unfold handleData handleFormSubmitted
  dsimp only
  repeat' split
  all_goals first
    | exact h
    | simp [(speakText_preserves _ _).2.1, h]

/-- Claim C10: once `isSubmitted` is true it stays true — no handler of
the component ever resets it — and `startRecording` is then a complete
no-op: it returns immediately with the state (recording status, chat
history, form values) exactly as it was and performs no effect, so no
further speech is recognized or sent for the rest of the session. -/
theorem c10_submitted_locks_capture (s : AppState) (h : s.isSubmitted = true) :
    (∀ mediaOk, startRecording mediaOk s = (s, [])) ∧
    (∀ d, (onmessage d s).1.isSubmitted = true) ∧
    (∀ t, (speakText t s).1.isSubmitted = true) ∧
    (∀ t, (onSpeechResult t s).1.isSubmitted = true) ∧
    (onSpeechError s).1.isSubmitted = true ∧
    (onSpeechEnd s).1.isSubmitted = true ∧
    (stopRecording s).1.isSubmitted = true ∧
    (submitForm s).1.isSubmitted = true ∧
    (∀ ok, (connectWebSocket ok s).1.isSubmitted = true) ∧
    (wsOnOpen s).1.isSubmitted = true ∧
    (wsOnClose s).1.isSubmitted = true ∧
    (wsOnError s).1.isSubmitted = true ∧
    (onUtteranceStart s).isSubmitted = true ∧
    (onUtteranceEnd s).isSubmitted = true ∧
    (onUtteranceError s).isSubmitted = true := by
  refine ⟨?_, ?_, ?_, fun _ => h, h, h, ?_, ?_, ?_, h, h, h, h, h, h⟩
  · intro mediaOk
    unfold startRecording
    rw [if_pos]
    exact Or.inr (Or.inr (Or.inl h))
  · intro d
    cases d with
    | none => exact h
    | some dd => exact handleData_isSubmitted dd s h
  · intro t
    rw [(speakText_preserves t s).2.1]
    exact h
  · unfold stopRecording
    split <;> exact h
  · unfold submitForm
    split
    · rfl
    · exact h
  · intro ok
    unfold connectWebSocket
    split <;> exact h

/-- Claim C10, witness: in a concrete submitted session, starting capture
is a no-op and an inbound assistant message leaves `isSubmitted` true. -/
theorem c10_witness :
    startRecording true stSubmitted = (stSubmitted, []) ∧
    (onmessage (some (asstFrame "x")) stSubmitted).1.isSubmitted = true :=
  ⟨(c10_submitted_locks_capture stSubmitted rfl).1 true,
   (c10_submitted_locks_capture stSubmitted rfl).2.1 (some (asstFrame "x"))⟩

end VoiceAgent
